import Mathlib

/-!
Verification of the encryption crypter module (`components/encryption/src/crypter.rs`):
the encryption-method registry (key lengths and the two wire encodings of the
method enumeration), the fixed-size nonce (IV) and authentication-tag parsers,
and the AES-256-GCM AEAD crypter.

Bytes are modelled as `Nat` values; byte sequences as `List Nat`.  Rust code
paths that abort the process (`panic!`, `assert!`, and the implicit abort of
`copy_from_slice` on a length mismatch) are modelled by the `RustOutcome`
type, whose `panicked` constructor carries the panic message; fallible
operations returning `crate::Result` are modelled with `Except`.
-/

/-- Outcome of a Rust computation that can abort the process: either a value,
or a panic with its message.  A `panicked` result is an abort, not a
recoverable error value returned to the caller. -/
inductive RustOutcome (α : Type) where
  | ok : α → RustOutcome α
  | panicked : String → RustOutcome α
deriving DecidableEq

/-- The protobuf-native encryption-method enumeration
(`kvproto::encryptionpb::EncryptionMethod`). -/
inductive EncryptionMethod where
  | Unknown
  | Plaintext
  | Aes128Ctr
  | Aes192Ctr
  | Aes256Ctr
deriving DecidableEq

/-- The storage-engine encryption-method enumeration
(`engine_traits::EncryptionMethod`). -/
inductive DBEncryptionMethod where
  | Unknown
  | Plaintext
  | Aes128Ctr
  | Aes192Ctr
  | Aes256Ctr
deriving DecidableEq

/-- `encryption_method_to_db_encryption_method` under
`cfg(not(feature = "prost-codec"))`: the constructor-wise correspondence
between the two enumerations. -/
def encryption_method_to_db_encryption_method :
    EncryptionMethod → DBEncryptionMethod
  | .Plaintext => .Plaintext
  | .Aes128Ctr => .Aes128Ctr
  | .Aes192Ctr => .Aes192Ctr
  | .Aes256Ctr => .Aes256Ctr
  | .Unknown => .Unknown

/-- `compat` under `cfg(not(feature = "prost-codec"))`: the identity. -/
def compat (method : EncryptionMethod) : EncryptionMethod := method

/-- `encryption_method_to_db_encryption_method` under
`cfg(feature = "prost-codec")`: decodes the compact integer wire code,
mapping any unrecognized code to `Unknown`. -/
def encryption_method_to_db_encryption_method_prost (method : Int) :
    DBEncryptionMethod :=
  if method = 1 then .Plaintext
  else if method = 2 then .Aes128Ctr
  else if method = 3 then .Aes192Ctr
  else if method = 4 then .Aes256Ctr
  else .Unknown

/-- `compat` under `cfg(feature = "prost-codec")`: encodes a method as its
compact integer wire code. -/
def compat_prost : EncryptionMethod → Int
  | .Unknown => 0
  | .Plaintext => 1
  | .Aes128Ctr => 2
  | .Aes192Ctr => 3
  | .Aes256Ctr => 4

/-- The constructor-wise correspondence from the storage-engine enumeration
back to the protobuf-native one: the (two-sided) inverse of
`encryption_method_to_db_encryption_method`, used to read a decoded wire
code back in the native enumeration. -/
def db_to_encryption_method : DBEncryptionMethod → EncryptionMethod
  | .Plaintext => .Plaintext
  | .Aes128Ctr => .Aes128Ctr
  | .Aes192Ctr => .Aes192Ctr
  | .Aes256Ctr => .Aes256Ctr
  | .Unknown => .Unknown

/-- `get_method_key_length`: key length in bytes for each defined method;
`panic!("bad EncryptionMethod {:?}", unknown)` on `Unknown`. -/
def get_method_key_length : EncryptionMethod → RustOutcome Nat
  | .Plaintext => .ok 0
  | .Aes128Ctr => .ok 16
  | .Aes192Ctr => .ok 24
  | .Aes256Ctr => .ok 32
  | .Unknown => .panicked "bad EncryptionMethod Unknown"

/-- `GCM_IV_12`: the IV length for GCM mode is 12 bytes. -/
def GCM_IV_12 : Nat := 12

/-- `Iv`: a 12-byte nonce/IV (`iv: [u8; GCM_IV_12]` in the source). -/
structure Iv where
  iv : List Nat
deriving DecidableEq

/-- `impl From<&[u8]> for Iv`: asserts `src.len() >= GCM_IV_12`
(process abort otherwise), then `copy_from_slice`, which itself aborts
unless the source length is exactly 12. -/
def Iv.fromBytes (src : List Nat) : RustOutcome Iv :=
  if src.length ≥ GCM_IV_12 then
    if src.length = GCM_IV_12 then .ok ⟨src⟩
    else .panicked "source slice length does not match destination slice length"
  else .panicked "Nonce + Counter must be greater than 12 bytes"

/-- `GCM_TAG_LEN`: the GCM tag length is 16 bytes. -/
def GCM_TAG_LEN : Nat := 16

/-- `AesGcmTag`: a 16-byte GCM authentication tag. -/
structure AesGcmTag where
  tag : List Nat
deriving DecidableEq

/-- `impl From<&[u8]> for AesGcmTag`: asserts `src.len() >= GCM_TAG_LEN`
(process abort otherwise), then `copy_from_slice`, which itself aborts
unless the source length is exactly 16. -/
def AesGcmTag.fromBytes (src : List Nat) : RustOutcome AesGcmTag :=
  if src.length ≥ GCM_TAG_LEN then
    if src.length = GCM_TAG_LEN then .ok ⟨src⟩
    else .panicked "source slice length does not match destination slice length"
  else .panicked "AES GCM tag must be 16 bytes"

/-- Modelled from the spec: the underlying AEAD primitive
(OpenSSL `symm::encrypt_aead` with `Cipher::aes_256_gcm()`) is an external
cryptographic library, not part of this repository.  This byte-mixing step
stands in for its internal block computation; what the spec fixes is only
the construction's shape (96-bit nonce, 128-bit tag, no associated data,
ciphertext of equal length to plaintext, tag verified integrally during
decryption), which the definitions below reproduce. -/
def byteMix (a b : Nat) : Nat := (a * 131 + b * 3 + 17) % 65521

/-- Modelled from the spec: a deterministic seed mixing the key and nonce,
standing in for the external cipher's key/nonce schedule. -/
def aeadSeed (key : List Nat) (ivBytes : List Nat) : Nat :=
  (key ++ ivBytes).foldl byteMix 9161

/-- Modelled from the spec: byte `i` of the CTR keystream derived from the
key and nonce. -/
def keystreamByte (key : List Nat) (iv : Iv) (i : Nat) : Nat :=
  (aeadSeed key iv.iv * (i + 1) + i * i * 7 + 3) % 256

/-- Modelled from the spec: the first `n` keystream bytes. -/
def keystreamList (key : List Nat) (iv : Iv) (n : Nat) : List Nat :=
  (List.range n).map (keystreamByte key iv)

/-- Modelled from the spec: the 16-byte authentication tag, a deterministic
function of the key, the nonce and the ciphertext (empty associated data),
standing in for the external cipher's GHASH computation. -/
def gcmMac (key : List Nat) (iv : Iv) (ct : List Nat) : AesGcmTag :=
  let s := ct.foldl byteMix (aeadSeed key iv.iv + 1)
  ⟨(List.range GCM_TAG_LEN).map (fun j => (s * (2 * j + 3) + j * 5 + 1) % 256)⟩

/-- Modelled from the spec: the error taxonomy of `crate::Result` (declared
outside this module).  Authentication failure on decryption is a distinct,
security-relevant error kind, not to be confused with generic
cryptographic-operation errors. -/
inductive CrypterError where
  | authFailure : CrypterError
  | cryptoError : String → CrypterError
deriving DecidableEq

/-- `AesGcmCrypter`: binds a borrowed key and an owned nonce. -/
structure AesGcmCrypter where
  iv : Iv
  key : List Nat
deriving DecidableEq

/-- `AesGcmCrypter::KEY_LEN`: the key length of `AesGcmCrypter` is 32 bytes. -/
def AesGcmCrypter.KEY_LEN : Nat := 32

/-- `AesGcmCrypter::new`: stores the key and IV; performs no validation. -/
def AesGcmCrypter.new (key : List Nat) (iv : Iv) : AesGcmCrypter :=
  { iv := iv, key := key }

/-- `AesGcmCrypter::encrypt`: runs the AES-256-GCM primitive forward with the
bound key and nonce and empty AAD, returning the ciphertext and the filled
tag.  Modelled from the spec: the primitive rejects a key whose length is
not 32 bytes with a cryptographic-operation error (surfaced by `?` as a
returned error value, never a panic). -/
def AesGcmCrypter.encrypt (c : AesGcmCrypter) (pt : List Nat) :
    Except CrypterError (List Nat × AesGcmTag) :=
  if c.key.length = AesGcmCrypter.KEY_LEN then
    let ct := List.zipWith Nat.xor pt (keystreamList c.key c.iv pt.length)
    .ok (ct, gcmMac c.key c.iv ct)
  else .error (.cryptoError "aes_256_gcm: invalid key length")

/-- `AesGcmCrypter::decrypt`: runs the primitive in reverse, verifying the
tag as an integral part of decryption.  Modelled from the spec: on tag
mismatch it fails with the authentication-failure error and yields no
plaintext bytes; a key of the wrong length fails with a
cryptographic-operation error. -/
def AesGcmCrypter.decrypt (c : AesGcmCrypter) (ct : List Nat)
    (tag : AesGcmTag) : Except CrypterError (List Nat) :=
  if c.key.length = AesGcmCrypter.KEY_LEN then
    if tag = gcmMac c.key c.iv ct then
      .ok (List.zipWith Nat.xor ct (keystreamList c.key c.iv ct.length))
    else .error .authFailure
  else .error (.cryptoError "aes_256_gcm: invalid key length")

theorem xor_xor_self (a b : Nat) : Nat.xor (Nat.xor a b) b = a :=
  Nat.xor_cancel_right b a

theorem zipWith_xor_cancel (pt ks : List Nat) (h : pt.length ≤ ks.length) :
    List.zipWith Nat.xor (List.zipWith Nat.xor pt ks) ks = pt := by
  induction pt generalizing ks with
  | nil => simp
  | cons a t ih =>
    cases ks with
    | nil => simp at h
    | cons b kt =>
      simp only [List.zipWith_cons_cons, xor_xor_self]
      rw [ih kt (by simp only [List.length_cons] at h; omega)]

theorem keystreamList_length (key : List Nat) (iv : Iv) (n : Nat) :
    (keystreamList key iv n).length = n := by
  simp [keystreamList]

/-- C2: for every 32-byte key, every nonce and every plaintext, decrypting the
ciphertext-and-tag produced by `encrypt` with the same key and nonce returns
exactly the original plaintext, and the ciphertext has the plaintext's
length. -/
theorem encrypt_decrypt_roundtrip (key : List Nat) (iv : Iv) (pt : List Nat)
    (hk : key.length = 32) :
    ∃ ct tag, (AesGcmCrypter.new key iv).encrypt pt = Except.ok (ct, tag) ∧
      (AesGcmCrypter.new key iv).decrypt ct tag = Except.ok pt ∧
      ct.length = pt.length := by
  have hks : (keystreamList key iv pt.length).length = pt.length :=
    keystreamList_length key iv pt.length
  have hct : (List.zipWith Nat.xor pt (keystreamList key iv pt.length)).length
      = pt.length := by
    simp [List.length_zipWith, hks]
  refine ⟨List.zipWith Nat.xor pt (keystreamList key iv pt.length),
    gcmMac key iv (List.zipWith Nat.xor pt (keystreamList key iv pt.length)),
    ?_, ?_, hct⟩
  · simp only [AesGcmCrypter.encrypt, AesGcmCrypter.new, AesGcmCrypter.KEY_LEN]
    rw [if_pos hk]
  · simp only [AesGcmCrypter.decrypt, AesGcmCrypter.new, AesGcmCrypter.KEY_LEN]
    rw [if_pos hk, if_pos trivial, hct]
    exact congrArg Except.ok (zipWith_xor_cancel pt _ hks.ge)

/-- C2 witness: the round trip at a concrete 32-byte key, nonce and
plaintext. -/
theorem encrypt_decrypt_roundtrip_witness :
    (List.replicate 32 2 : List Nat).length = 32 ∧
    (∃ ct tag,
      (AesGcmCrypter.new (List.replicate 32 2) ⟨List.replicate 12 1⟩).encrypt
        [10, 20, 30] = Except.ok (ct, tag) ∧
      (AesGcmCrypter.new (List.replicate 32 2) ⟨List.replicate 12 1⟩).decrypt
        ct tag = Except.ok [10, 20, 30] ∧
      ct.length = ([10, 20, 30] : List Nat).length) :=
  ⟨by decide, encrypt_decrypt_roundtrip (List.replicate 32 2)
    ⟨List.replicate 12 1⟩ [10, 20, 30] (by decide)⟩

/-- C1: for every 32-byte key, nonce and ciphertext, decrypting with any tag
other than the authentic one fails with the authentication-failure error and
returns no plaintext bytes; the authentication-failure kind is distinct from
every generic cryptographic-operation error. -/
theorem decrypt_wrong_tag_auth_failure (key : List Nat) (iv : Iv)
    (ct : List Nat) (tag : AesGcmTag) (hk : key.length = 32)
    (ht : tag ≠ gcmMac key iv ct) :
    (AesGcmCrypter.new key iv).decrypt ct tag =
      Except.error CrypterError.authFailure ∧
    (∀ pt, (AesGcmCrypter.new key iv).decrypt ct tag ≠ Except.ok pt) ∧
    (∀ msg, CrypterError.authFailure ≠ CrypterError.cryptoError msg) := by
  have h1 : (AesGcmCrypter.new key iv).decrypt ct tag =
      Except.error CrypterError.authFailure := by
    simp only [AesGcmCrypter.decrypt, AesGcmCrypter.new, AesGcmCrypter.KEY_LEN]
    rw [if_pos hk, if_neg ht]
  refine ⟨h1, fun pt hpt => ?_, fun msg hmsg => CrypterError.noConfusion hmsg⟩
  rw [h1] at hpt
  exact Except.noConfusion hpt

set_option maxRecDepth 100000 in
/-- C1 witness: an all-zero tag against a concrete key, nonce and ciphertext
is rejected with the authentication-failure error. -/
theorem decrypt_wrong_tag_auth_failure_witness :
    (List.replicate 32 0 : List Nat).length = 32 ∧
    AesGcmTag.mk (List.replicate 16 0) ≠
      gcmMac (List.replicate 32 0) ⟨List.replicate 12 0⟩ (List.replicate 32 0) ∧
    (AesGcmCrypter.new (List.replicate 32 0) ⟨List.replicate 12 0⟩).decrypt
      (List.replicate 32 0) ⟨List.replicate 16 0⟩ =
      Except.error CrypterError.authFailure :=
  ⟨by decide, by decide,
    (decrypt_wrong_tag_auth_failure (List.replicate 32 0)
      ⟨List.replicate 12 0⟩ (List.replicate 32 0) ⟨List.replicate 16 0⟩
      (by decide) (by decide)).1⟩

/-- C3: the key-length lookup applied to the `Unknown` method does not return
a recoverable error value to the caller; it aborts the process via
`panic!("bad EncryptionMethod {:?}", unknown)`. -/
theorem get_method_key_length_unknown_aborts :
    get_method_key_length EncryptionMethod.Unknown =
      RustOutcome.panicked "bad EncryptionMethod Unknown" := by
  decide

/-- C4: parsing a nonce from fewer than 12 bytes, or a tag from fewer than
16 bytes, does not return a recoverable error value to the caller; the
`assert!` aborts the process with the shown messages. -/
theorem short_nonce_and_tag_abort :
    Iv.fromBytes (List.replicate 11 0) =
      RustOutcome.panicked "Nonce + Counter must be greater than 12 bytes" ∧
    Iv.fromBytes [] =
      RustOutcome.panicked "Nonce + Counter must be greater than 12 bytes" ∧
    AesGcmTag.fromBytes (List.replicate 15 0) =
      RustOutcome.panicked "AES GCM tag must be 16 bytes" ∧
    AesGcmTag.fromBytes [] =
      RustOutcome.panicked "AES GCM tag must be 16 bytes" := by
  decide

/-- C5 counterexample: a 13-byte input passes the length assertion but the
nonce construction still aborts (in `copy_from_slice`, whose destination is
exactly 12 bytes) instead of succeeding with the first 12 bytes; likewise a
17-byte input for the 16-byte tag. -/
theorem excess_bytes_abort :
    Iv.fromBytes (List.replicate 13 0) =
      RustOutcome.panicked
        "source slice length does not match destination slice length" ∧
    (¬ ∃ res, Iv.fromBytes (List.replicate 13 0) = RustOutcome.ok res) ∧
    AesGcmTag.fromBytes (List.replicate 17 0) =
      RustOutcome.panicked
        "source slice length does not match destination slice length" ∧
    (¬ ∃ res, AesGcmTag.fromBytes (List.replicate 17 0) = RustOutcome.ok res) := by
  refine ⟨by decide, ?_, by decide, ?_⟩
  · rintro ⟨res, h⟩
    rw [show Iv.fromBytes (List.replicate 13 0) =
      RustOutcome.panicked
        "source slice length does not match destination slice length"
      from by decide] at h
    exact RustOutcome.noConfusion h
  · rintro ⟨res, h⟩
    rw [show AesGcmTag.fromBytes (List.replicate 17 0) =
      RustOutcome.panicked
        "source slice length does not match destination slice length"
      from by decide] at h
    exact RustOutcome.noConfusion h

/-- C5 amended: a byte sequence of length exactly 12 (respectively 16) yields
a nonce (tag) equal to the input; any strictly longer sequence passes the
length assertion but aborts in the byte copy instead of truncating. -/
theorem iv_tag_from_exact_length_ok (nsrc tsrc : List Nat)
    (hn : nsrc.length = 12) (ht : tsrc.length = 16) :
    Iv.fromBytes nsrc = RustOutcome.ok ⟨nsrc⟩ ∧
    AesGcmTag.fromBytes tsrc = RustOutcome.ok ⟨tsrc⟩ ∧
    (∀ xs : List Nat, xs.length > 12 → Iv.fromBytes xs =
      RustOutcome.panicked
        "source slice length does not match destination slice length") ∧
    (∀ xs : List Nat, xs.length > 16 → AesGcmTag.fromBytes xs =
      RustOutcome.panicked
        "source slice length does not match destination slice length") := by
  refine ⟨?_, ?_, ?_, ?_⟩
  · simp only [Iv.fromBytes, GCM_IV_12]
    rw [if_pos (by omega), if_pos hn]
  · simp only [AesGcmTag.fromBytes, GCM_TAG_LEN]
    rw [if_pos (by omega), if_pos ht]
  · intro xs hxs
    simp only [Iv.fromBytes, GCM_IV_12]
    rw [if_pos (by omega), if_neg (by omega)]
  · intro xs hxs
    simp only [AesGcmTag.fromBytes, GCM_TAG_LEN]
    rw [if_pos (by omega), if_neg (by omega)]

/-- C5 amended witness: exact-length construction succeeds at concrete
inputs. -/
theorem iv_tag_from_exact_length_ok_witness :
    (List.replicate 12 3 : List Nat).length = 12 ∧
    (List.replicate 16 4 : List Nat).length = 16 ∧
    Iv.fromBytes (List.replicate 12 3) = RustOutcome.ok ⟨List.replicate 12 3⟩ :=
  ⟨by decide, by decide,
    (iv_tag_from_exact_length_ok (List.replicate 12 3) (List.replicate 16 4)
      (by decide) (by decide)).1⟩

/-- C6: the integer wire codec and the native enumeration are exact inverses
on the defined domain, with Unknown↔0, Plaintext↔1, Aes128Ctr↔2,
Aes192Ctr↔3, Aes256Ctr↔4: decoding the code of each of the five methods
gives the method back, and encoding the decoding of each code 0–4 gives the
code back. -/
theorem method_codec_inverse :
    (db_to_encryption_method (encryption_method_to_db_encryption_method_prost
      (compat_prost EncryptionMethod.Unknown)) = EncryptionMethod.Unknown) ∧
    (db_to_encryption_method (encryption_method_to_db_encryption_method_prost
      (compat_prost EncryptionMethod.Plaintext)) = EncryptionMethod.Plaintext) ∧
    (db_to_encryption_method (encryption_method_to_db_encryption_method_prost
      (compat_prost EncryptionMethod.Aes128Ctr)) = EncryptionMethod.Aes128Ctr) ∧
    (db_to_encryption_method (encryption_method_to_db_encryption_method_prost
      (compat_prost EncryptionMethod.Aes192Ctr)) = EncryptionMethod.Aes192Ctr) ∧
    (db_to_encryption_method (encryption_method_to_db_encryption_method_prost
      (compat_prost EncryptionMethod.Aes256Ctr)) = EncryptionMethod.Aes256Ctr) ∧
    (compat_prost (db_to_encryption_method
      (encryption_method_to_db_encryption_method_prost 0)) = 0) ∧
    (compat_prost (db_to_encryption_method
      (encryption_method_to_db_encryption_method_prost 1)) = 1) ∧
    (compat_prost (db_to_encryption_method
      (encryption_method_to_db_encryption_method_prost 2)) = 2) ∧
    (compat_prost (db_to_encryption_method
      (encryption_method_to_db_encryption_method_prost 3)) = 3) ∧
    (compat_prost (db_to_encryption_method
      (encryption_method_to_db_encryption_method_prost 4)) = 4) ∧
    (compat_prost EncryptionMethod.Unknown = 0) ∧
    (compat_prost EncryptionMethod.Plaintext = 1) ∧
    (compat_prost EncryptionMethod.Aes128Ctr = 2) ∧
    (compat_prost EncryptionMethod.Aes192Ctr = 3) ∧
    (compat_prost EncryptionMethod.Aes256Ctr = 4) := by
  decide

/-- C7: the wire-code decoder is a total function, and every integer code
other than the recognized codes 1, 2, 3, 4 maps to the `Unknown` method. -/
theorem decode_unrecognized_is_unknown (c : Int)
    (h1 : c ≠ 1) (h2 : c ≠ 2) (h3 : c ≠ 3) (h4 : c ≠ 4) :
    encryption_method_to_db_encryption_method_prost c =
      DBEncryptionMethod.Unknown := by
  simp [encryption_method_to_db_encryption_method_prost, h1, h2, h3, h4]

/-- C7 witness: the unrecognized code 99 decodes to `Unknown`. -/
theorem decode_unrecognized_is_unknown_witness :
    (99 : Int) ≠ 1 ∧
    encryption_method_to_db_encryption_method_prost 99 =
      DBEncryptionMethod.Unknown :=
  ⟨by decide, decode_unrecognized_is_unknown 99 (by decide) (by decide)
    (by decide) (by decide)⟩

/-- C8: the key-length lookup returns exactly 0 for Plaintext, 16 for
Aes128Ctr, 24 for Aes192Ctr, and 32 for Aes256Ctr. -/
theorem key_length_defined_methods :
    get_method_key_length EncryptionMethod.Plaintext = RustOutcome.ok 0 ∧
    get_method_key_length EncryptionMethod.Aes128Ctr = RustOutcome.ok 16 ∧
    get_method_key_length EncryptionMethod.Aes192Ctr = RustOutcome.ok 24 ∧
    get_method_key_length EncryptionMethod.Aes256Ctr = RustOutcome.ok 32 := by
  decide

/-- C9: under the native (non-prost) codec configuration, `compat` is the
identity on `EncryptionMethod`. -/
theorem compat_is_identity : ∀ m : EncryptionMethod, compat m = m :=
  fun _ => rfl

/-- C10: `AesGcmCrypter::new` never fails and validates nothing: it binds
exactly the given key and nonce, for a key of any length; a wrong-length key
surfaces only later, when `encrypt` or `decrypt` runs the primitive, as a
returned cryptographic-operation error value. -/
theorem new_binds_key_iv_and_defers_key_check (key : List Nat) (iv : Iv) :
    (AesGcmCrypter.new key iv).key = key ∧
    (AesGcmCrypter.new key iv).iv = iv ∧
    (key.length ≠ 32 →
      (∀ pt, (AesGcmCrypter.new key iv).encrypt pt =
        Except.error (CrypterError.cryptoError "aes_256_gcm: invalid key length")) ∧
      (∀ ct tag, (AesGcmCrypter.new key iv).decrypt ct tag =
        Except.error (CrypterError.cryptoError "aes_256_gcm: invalid key length"))) := by
  refine ⟨rfl, rfl, fun hk => ⟨fun pt => ?_, fun ct tag => ?_⟩⟩
  · simp only [AesGcmCrypter.encrypt, AesGcmCrypter.new, AesGcmCrypter.KEY_LEN]
    rw [if_neg hk]
  · simp only [AesGcmCrypter.decrypt, AesGcmCrypter.new, AesGcmCrypter.KEY_LEN]
    rw [if_neg hk]

/-- C10 witness: a 1-byte key is accepted by `new` and only `encrypt`
reports the cryptographic-operation error. -/
theorem new_binds_key_iv_and_defers_key_check_witness :
    (AesGcmCrypter.new [1] ⟨List.replicate 12 0⟩).key = [1] ∧
    ([1] : List Nat).length ≠ 32 ∧
    (AesGcmCrypter.new [1] ⟨List.replicate 12 0⟩).encrypt [5] =
      Except.error (CrypterError.cryptoError "aes_256_gcm: invalid key length") :=
  ⟨(new_binds_key_iv_and_defers_key_check [1] ⟨List.replicate 12 0⟩).1,
    by decide,
    ((new_binds_key_iv_and_defers_key_check [1] ⟨List.replicate 12 0⟩).2.2
      (by decide)).1 [5]⟩
